import Mathlib

/-!
Verification of the movie-catalog request-handling core
(`src/api-project/lambda/movies/index.ts`).

The TypeScript Lambda handler is shallowly embedded as pure Lean functions.
The DynamoDB table is an association list keyed by `(category, id)` inside a
`Store` structure that also carries the `TABLE_NAME`-is-set flag and one
failure flag per kind of underlying store call (get / scan / query / put /
update); a raw call either errors (flag set) or returns the data, and the
adapter functions catch exactly where the source's `try`/`catch` blocks do.
The Amazon Translate client is an oracle `Translator : String → String →
Except TransErr String`. Effects that the claims talk about (number of
translator invocations, the parameters passed to it, the number of store
write attempts) are computed alongside the response in `HResult`.
-/

namespace MovieCore

/-- Association-list lookup by key (models a JS object / DynamoDB key lookup). -/
def assocFind {α β : Type} [DecidableEq α] : List (α × β) → α → Option β
  | [], _ => none
  | (a, b) :: t, k => if a = k then some b else assocFind t k

/-- Association-list insert/overwrite (models `obj[k] = v` and DynamoDB `put`). -/
def assocSet {α β : Type} [DecidableEq α] : List (α × β) → α → β → List (α × β)
  | [], k, v => [(k, v)]
  | (a, b) :: t, k, v => if a = k then (k, v) :: t else (a, b) :: assocSet t k v

/-- A translations map: language code to translated text. -/
abbrev TransMap := List (String × String)

/-- JS `String.prototype.trim()`: strip leading and trailing whitespace. -/
def jsTrim (s : String) : String :=
  String.mk (((s.data.dropWhile Char.isWhitespace).reverse.dropWhile Char.isWhitespace).reverse)

/-- JS `String.prototype.endsWith(suffix)`. -/
def jsEndsWith (s suffix : String) : Bool :=
  suffix.data.isSuffixOf s.data

/-- Split a character list at every occurrence of the separator. -/
def splitChars (sep : Char) : List Char → List (List Char)
  | [] => [[]]
  | c :: rest =>
    let r := splitChars sep rest
    if c = sep then [] :: r
    else
      match r with
      | [] => [[c]]
      | g :: gs => (c :: g) :: gs

/-- JS `String.prototype.split(sep)` for a one-character separator. -/
def jsSplit (s : String) (sep : Char) : List String :=
  (splitChars sep s.data).map String.mk

/-- The `Movie` interface (index.ts lines 26-36).  `rating` is a JS number,
modelled as a rational; `translations` is optional, as in the source. -/
structure Movie where
  category : String
  id : String
  title : String
  director : String
  year : Int
  rating : Rat
  description : String
  isAvailable : Bool
  translations : Option TransMap
deriving Repr, DecidableEq

/-- The built-in fallback data `sampleMovies` (index.ts lines 39-62). -/
def sampleMovies : List Movie := [
  { id := "movie1", category := "action", title := "黑客帝国",
    director := "沃卓斯基姐妹", year := 1999, rating := Rat.divInt 87 10,
    description := "一个计算机黑客了解到现实世界的真相，并加入对抗机器人的反抗军。",
    isAvailable := true,
    translations := some [("en", "A computer hacker learns about the true nature of reality and joins a rebellion against machines.")] },
  { id := "movie2", category := "drama", title := "肖申克的救赎",
    director := "弗兰克·德拉邦特", year := 1994, rating := Rat.divInt 93 10,
    description := "两个被监禁的人在数十年的时间里建立了非凡的友谊，在绝望中找到了希望。",
    isAvailable := true,
    translations := some [("en", "Two imprisoned men bond over a number of years, finding solace and eventual redemption through acts of common decency.")] }
]

/-- `sampleMovies.find(m => m.id === id && m.category === category)`. -/
def sampleFind (category id : String) : Option Movie :=
  sampleMovies.find? (fun m => m.id = id && m.category = category)

/-- `sampleMovies.find(m => m.id === id)`. -/
def sampleFindById (id : String) : Option Movie :=
  sampleMovies.find? (fun m => m.id = id)

/-- JS truthiness of an optional string: `undefined` and `""` are falsy. -/
def strTruthy : Option String → Bool
  | some s => !s.isEmpty
  | none => false

/-- The persistent store: the DynamoDB table (association list keyed by
`(category, id)`), whether `TABLE_NAME` is configured, and one flag per kind
of underlying call saying whether that call throws. -/
structure Store where
  tableSet : Bool
  table : List ((String × String) × Movie)
  getFails : Bool := false
  scanFails : Bool := false
  queryFails : Bool := false
  putFails : Bool := false
  updateFails : Bool := false
deriving Repr, DecidableEq

/-- `dynamoDB.get({Key: {category, id}})`: errors or returns the item. -/
def rawGet (st : Store) (key : String × String) : Except String (Option Movie) :=
  if st.getFails then .error "store error" else .ok (assocFind st.table key)

/-- `dynamoDB.scan` with `FilterExpression: 'id = :idValue'`. -/
def rawScanById (st : Store) (id : String) : Except String (List Movie) :=
  if st.scanFails then .error "store error"
  else .ok ((st.table.map Prod.snd).filter (fun m => m.id = id))

/-- `dynamoDB.query` with `KeyConditionExpression: 'category = :category'`. -/
def rawQueryByCategory (st : Store) (category : String) : Except String (List Movie) :=
  if st.queryFails then .error "store error"
  else .ok ((st.table.filter (fun kv => kv.1.1 = category)).map Prod.snd)

/-- `dynamoDB.scan({Limit: 50})`. -/
def rawScanAll (st : Store) : Except String (List Movie) :=
  if st.scanFails then .error "store error"
  else .ok ((st.table.map Prod.snd).take 50)

/-- The table after `dynamoDB.put({Item: movie})` succeeds (upsert keyed by
the item's own `(category, id)`). -/
def putItem (st : Store) (m : Movie) : Store :=
  { st with table := assocSet st.table (m.category, m.id) m }

/-- `dynamoDB.put`: errors or upserts. -/
def rawPut (st : Store) (m : Movie) : Except String Store :=
  if st.putFails then .error "store error" else .ok (putItem st m)

/-- Result of `addMovieToDB`: the returned boolean, the post store, and the
number of `dynamoDB.put` calls attempted. -/
structure PutResult where
  ok : Bool
  store : Store
  puts : Nat
deriving Repr, DecidableEq

/-- `addMovieToDB` (index.ts lines 73-90): no-op `false` when `TABLE_NAME` is
unset; otherwise try the put, catching any error into `false`. -/
def addMovieToDB (st : Store) (m : Movie) : PutResult :=
  if st.tableSet = false then ⟨false, st, 0⟩
  else
    match rawPut st m with
    | .ok st' => ⟨true, st', 1⟩
    | .error _ => ⟨false, st, 1⟩

/-- `getMovieFromDB` (index.ts lines 93-126): sample data when `TABLE_NAME`
is unset; otherwise point get, falling back to sample data both when the item
is absent and when the store call throws. -/
def getMovieFromDB (st : Store) (category id : String) : Option Movie :=
  if st.tableSet = false then sampleFind category id
  else
    match rawGet st (category, id) with
    | .ok (some m) => some m
    | .ok none => sampleFind category id
    | .error _ => sampleFind category id

/-- `getMovieByIdFromDB` (index.ts lines 129-156): scan by `id`, first match
wins, sample-data fallback on empty result or error. -/
def getMovieByIdFromDB (st : Store) (id : String) : Option Movie :=
  if st.tableSet = false then sampleFindById id
  else
    match rawScanById st id with
    | .ok items =>
      match items.head? with
      | some m => some m
      | none => sampleFindById id
    | .error _ => sampleFindById id

/-- `category ? sampleMovies.filter(...) : sampleMovies` (index.ts 162, 194, 197). -/
def sampleFilter (category : Option String) : List Movie :=
  if strTruthy category then sampleMovies.filter (fun m => m.category = category.getD "")
  else sampleMovies

/-- `getMoviesFromDB` (index.ts lines 159-199): query by category or scan all
(capped at 50), with sample-data fallback on empty result or error. -/
def getMoviesFromDB (st : Store) (category : Option String) : List Movie :=
  if st.tableSet = false then sampleFilter category
  else
    match (if strTruthy category then rawQueryByCategory st (category.getD "") else rawScanAll st) with
    | .ok items => if items.length > 0 then items else sampleFilter category
    | .error _ => sampleFilter category

/-- A parsed JSON request body.  Each field is `some v` when the key is
present in the JSON object and `none` when it is absent (`undefined`).
`pid` models a JSON `id` key (the name `id` is taken by `Movie`). -/
structure Payload where
  title : Option String := none
  category : Option String := none
  pid : Option String := none
  director : Option String := none
  year : Option Int := none
  rating : Option Rat := none
  description : Option String := none
  isAvailable : Option Bool := none
  translations : Option TransMap := none
deriving Repr, DecidableEq

/-- Whether any of the seven whitelisted updatable fields
(index.ts lines 210-218) is present (`!== undefined`) in the payload. -/
def hasWhitelistField (p : Payload) : Bool :=
  p.title.isSome || p.director.isSome || p.year.isSome || p.rating.isSome ||
  p.description.isSome || p.isAvailable.isSome || p.translations.isSome

/-- Apply the whitelisted fields present in the payload to a movie — the
effect of the generated `SET` update expression (index.ts lines 224-230).
A present `translations` field replaces the whole map. -/
def applyWhitelist (m : Movie) (p : Payload) : Movie :=
  { m with
    title := p.title.getD m.title
    director := p.director.getD m.director
    year := p.year.getD m.year
    rating := p.rating.getD m.rating
    description := p.description.getD m.description
    isAvailable := p.isAvailable.getD m.isAvailable
    translations := match p.translations with
      | some ts => some ts
      | none => m.translations }

/-- Result of `updateMovieInDB`: the returned movie (or `null`), the post
store, and the number of `dynamoDB.update` calls attempted. -/
structure UpdResult where
  updated : Option Movie
  store : Store
  updates : Nat
deriving Repr, DecidableEq

/-- `updateMovieInDB` (index.ts lines 202-258): `null` when `TABLE_NAME` is
unset; `null` with no store call when no whitelisted field is present in the
payload; otherwise the update call, catching any error into `null`.
DynamoDB `UpdateItem` on an absent key would create a partial item containing
only the key and the updated attributes; that item is not a complete `Movie`
and no handler path exercised here observes it, so the absent-key case is
modelled as an update that returns no complete movie and leaves the table of
complete movies unchanged. -/
def updateMovieInDB (st : Store) (category id : String) (p : Payload) : UpdResult :=
  if st.tableSet = false then ⟨none, st, 0⟩
  else if hasWhitelistField p = false then ⟨none, st, 0⟩
  else if st.updateFails then ⟨none, st, 1⟩
  else
    match assocFind st.table (category, id) with
    | some m =>
      let m' := applyWhitelist m p
      ⟨some m', { st with table := assocSet st.table (category, id) m' }, 1⟩
    | none => ⟨none, st, 1⟩

/-- An error thrown by the Amazon Translate client. -/
structure TransErr where
  code : String
  message : String
deriving Repr, DecidableEq

/-- The parameter object passed to `translateText`
(`SourceLanguageCode` is always the literal `"auto"` in the source). -/
structure TranslateParams where
  text : String
  sourceLanguageCode : String
  targetLanguageCode : String
deriving Repr, DecidableEq

/-- The external Amazon Translate service: text and target language in,
translated text or a service error out. -/
def Translator : Type := String → String → Except TransErr String

/-- The response produced by the handler (status code plus the JSON body
fields the claims talk about; `translated` is the body's
`translated_description` / `translated` field). -/
structure Resp where
  statusCode : Nat
  message : Option String := none
  movie : Option Movie := none
  movies : Option (List Movie) := none
  translated : Option String := none
  error : Option String := none
deriving Repr, DecidableEq

/-- One handler run: the response, the post store, and the observable
effects — translator invocation count, the parameters of those invocations,
and the number of store write attempts (`put` + `update` calls). -/
structure HResult where
  resp : Resp
  store : Store
  translatorCalls : Nat := 0
  translatorArgs : List TranslateParams := []
  storeWrites : Nat := 0
deriving Repr, DecidableEq

/-- The cached translation entry for a language, if any
(`movie.translations` and then the `language` key). -/
def trLookup (m : Movie) (language : String) : Option String :=
  m.translations.bind (fun ts => assocFind ts language)

/-- JS truthiness of `movie.translations && movie.translations[language]`
(index.ts line 386): an absent map, an absent entry, and an empty-string
entry are all falsy. -/
def cacheHit (m : Movie) (language : String) : Bool :=
  !((trLookup m language).getD "").isEmpty

/-- The movie after `movie.translations[language] = translatedText`, the map
first initialised to `{}` if absent (index.ts lines 430-435). -/
def cacheStore (m : Movie) (language t : String) : Movie :=
  { m with translations := some (assocSet (m.translations.getD []) language t) }

/-- The translation branch of the handler after `category`, `id` and
`language` have been resolved (index.ts lines 358-476): resolve the movie,
short-circuit on blank description, return a truthy cached entry, otherwise
call the translator once, and on success cache the result and fire the
best-effort `addMovieToDB` persist (whose failure is swallowed). -/
def translateCore (st : Store) (tr : Translator) (category id language : String) : HResult :=
  match getMovieFromDB st category id with
  | none =>
    { resp := { statusCode := 404, message := some "Movie not found" }, store := st }
  | some movie =>
    if jsTrim movie.description = "" then
      { resp := { statusCode := 200,
                  message := some "Movie description is empty, no translation needed",
                  movie := some movie, translated := some "" }, store := st }
    else if cacheHit movie language then
      { resp := { statusCode := 200, message := some "Using cached translation",
                  movie := some movie, translated := trLookup movie language },
        store := st }
    else
      match tr movie.description language with
      | .ok t =>
        let movie' := cacheStore movie language t
        let pr := addMovieToDB st movie'
        { resp := { statusCode := 200, message := some "Translation successful",
                    movie := some movie', translated := some t },
          store := pr.store, translatorCalls := 1,
          translatorArgs := [⟨movie.description, "auto", language⟩],
          storeWrites := pr.puts }
      | .error e =>
        { resp := { statusCode := 500, message := some "Translation service error",
                    error := some (e.code ++ ": " ++ e.message),
                    movie := some movie,
                    translated := some ("Translation failed: " ++ movie.description) },
          store := st, translatorCalls := 1,
          translatorArgs := [⟨movie.description, "auto", language⟩] }

/-- The new movie record built by the POST branch (index.ts lines 602-613):
fresh uuid as `id`, JS-truthy defaulting for `director`/`year`/`rating`, an
`!== undefined` check for `isAvailable`, and an empty translations map. -/
def buildMovie (p : Payload) (freshId : String) (nowYear : Int) : Movie :=
  { id := freshId
    category := p.category.getD ""
    title := p.title.getD ""
    director := if strTruthy p.director then p.director.getD "" else "Unknown"
    year := match p.year with
      | some y => if y = 0 then nowYear else y
      | none => nowYear
    rating := p.rating.getD 0
    description := p.description.getD ""
    isAvailable := p.isAvailable.getD true
    translations := some [] }

/-- The POST branch (index.ts lines 588-634): parse the body, validate the
required fields by JS truthiness, build the movie (with the fresh uuid and
current year supplied by the environment), attempt the save, return 201. -/
def postCore (st : Store) (body : Except Unit Payload) (freshId : String) (nowYear : Int) : HResult :=
  match body with
  | .error _ =>
    { resp := { statusCode := 400, message := some "Invalid request body format" }, store := st }
  | .ok p =>
    if !(strTruthy p.title && strTruthy p.category && strTruthy p.description) then
      { resp := { statusCode := 400,
                  message := some "Title, category, and description are required fields" },
        store := st }
    else
      let movie := buildMovie p freshId nowYear
      let pr := addMovieToDB st movie
      { resp := { statusCode := 201,
                  message := some (if pr.ok then "Movie successfully added to database"
                                   else "Movie created but not saved to database"),
                  movie := some movie },
        store := pr.store, storeWrites := pr.puts }

/-- `{...movie, ...requestBody}` restricted to the `Movie` fields — the
fallback object built when the database update returned `null`
(index.ts lines 678-681). -/
def mergeMovie (m : Movie) (p : Payload) : Movie :=
  { category := p.category.getD m.category
    id := p.pid.getD m.id
    title := p.title.getD m.title
    director := p.director.getD m.director
    year := p.year.getD m.year
    rating := p.rating.getD m.rating
    description := p.description.getD m.description
    isAvailable := p.isAvailable.getD m.isAvailable
    translations := match p.translations with
      | some ts => some ts
      | none => m.translations }

/-- The tail of the PUT branch once a movie has been resolved
(index.ts lines 672-700): attempt the update; on `null` answer 200 with the
merged fallback object, otherwise 200 with the updated movie.  `puts` counts
write attempts made earlier in the branch. -/
def putAfterResolve (st : Store) (puts : Nat) (category id : String) (p : Payload) (m : Movie) : HResult :=
  let ur := updateMovieInDB st category id p
  match ur.updated with
  | none =>
    { resp := { statusCode := 200,
                message := some "Movie update not saved to database, but this is the updated data",
                movie := some (mergeMovie m p) },
      store := ur.store, storeWrites := puts + ur.updates }
  | some m' =>
    { resp := { statusCode := 200, message := some "Movie successfully updated",
                movie := some m' },
      store := ur.store, storeWrites := puts + ur.updates }

/-- The PUT branch (index.ts lines 637-709): require truthy path parameters,
parse the body, resolve the movie (re-checking the sample data and seeding
the table when the store lookup returned nothing), then update. -/
def putCore (st : Store) (category id : Option String) (body : Except Unit Payload) : HResult :=
  if !(strTruthy category && strTruthy id) then
    { resp := { statusCode := 400, message := some "Missing category or ID parameter" },
      store := st }
  else
    let c := category.getD ""
    let i := id.getD ""
    match body with
    | .error _ =>
      { resp := { statusCode := 400, message := some "Invalid request body format" }, store := st }
    | .ok p =>
      match getMovieFromDB st c i with
      | none =>
        match sampleFind c i with
        | none =>
          { resp := { statusCode := 404, message := some "Movie not found" }, store := st }
        | some m =>
          let pr := addMovieToDB st m
          putAfterResolve pr.store pr.puts c i p m
      | some m => putAfterResolve st 0 c i p m

instance {ε α : Type} [DecidableEq ε] [DecidableEq α] : DecidableEq (Except ε α) := fun a b =>
  match a, b with
  | .ok x, .ok y =>
    if h : x = y then isTrue (by rw [h]) else isFalse (fun he => by cases he; exact h rfl)
  | .ok _, .error _ => isFalse (fun he => by cases he)
  | .error _, .ok _ => isFalse (fun he => by cases he)
  | .error x, .error y =>
    if h : x = y then isTrue (by rw [h]) else isFalse (fun he => by cases he; exact h rfl)

/-- The inbound `APIGatewayProxyEvent` fields the handler reads.  The JSON
body is carried already parsed (`.error ()` stands for a body on which
`JSON.parse` throws; an absent body parses as `'{}'`, i.e. `.ok {}`). -/
structure Event where
  httpMethod : String
  path : String := ""
  ppCategory : Option String := none
  ppId : Option String := none
  qLanguage : Option String := none
  qCategory : Option String := none
  qId : Option String := none
  qText : Option String := none
  body : Except Unit Payload := .ok {}
deriving Repr, DecidableEq

/-- Resolution of `(category, id)` for a translation request
(index.ts lines 329-344): path parameters first; when either is falsy,
re-parse them from the URL path `/movies/{category}/{id}/translation`. -/
def resolveTransIds (ev : Event) : Option String × Option String :=
  let id := ev.ppId
  let category := ev.ppCategory
  if !(strTruthy id && strTruthy category) then
    let parts := (jsSplit ev.path '/').filter (fun s => s ≠ "")
    if parts.length ≥ 4 ∧ parts.head? = some "movies" then (parts[1]?, parts[2]?)
    else (category, id)
  else (category, id)

/-- The translation branch entry (index.ts lines 324-477): resolve the
parameters, default the language to `"en"`, reject when category or id is
still missing, then run the translation core. -/
def translationBranch (ev : Event) (st : Store) (tr : Translator) : HResult :=
  let ci := resolveTransIds ev
  let language := if strTruthy ev.qLanguage then ev.qLanguage.getD "" else "en"
  if !(strTruthy ci.1 && strTruthy ci.2) then
    { resp := { statusCode := 400,
                message := some "Invalid translation request path, missing category or ID parameter" },
      store := st }
  else translateCore st tr (ci.1.getD "") (ci.2.getD "") language

/-- The GET branch (index.ts lines 480-585): the `/test-translate` probe,
the get-by-id lookup, or the list (with the redundant sample fallback on an
empty list, lines 570-578). -/
def getCore (ev : Event) (st : Store) (tr : Translator) : HResult :=
  if jsEndsWith ev.path "/test-translate" then
    let language := if strTruthy ev.qLanguage then ev.qLanguage.getD "" else "en"
    let text := if strTruthy ev.qText then ev.qText.getD ""
                else "这是一个测试文本，用于测试Amazon Translate服务。"
    match tr text language with
    | .ok t =>
      { resp := { statusCode := 200, message := some "Test translation request successful",
                  translated := some t },
        store := st, translatorCalls := 1, translatorArgs := [⟨text, "auto", language⟩] }
    | .error e =>
      { resp := { statusCode := 500, message := some "Test translation request failed",
                  error := some (e.code ++ ": " ++ e.message) },
        store := st, translatorCalls := 1, translatorArgs := [⟨text, "auto", language⟩] }
  else if strTruthy ev.qId then
    match getMovieByIdFromDB st (ev.qId.getD "") with
    | none => { resp := { statusCode := 404, message := some "Movie not found" }, store := st }
    | some m => { resp := { statusCode := 200, movie := some m }, store := st }
  else
    let movies := getMoviesFromDB st ev.qCategory
    let movies := if movies.length = 0 then sampleFilter ev.qCategory else movies
    { resp := { statusCode := 200, movies := some movies }, store := st }

/-- The method/path dispatch inside the handler's `try` block
(index.ts lines 317-716). -/
def dispatch (ev : Event) (st : Store) (tr : Translator) (freshId : String) (nowYear : Int) : HResult :=
  if jsEndsWith ev.path "/translation" && ev.httpMethod = "GET" then translationBranch ev st tr
  else if ev.httpMethod = "GET" then getCore ev st tr
  else if ev.httpMethod = "POST" then postCore st ev.body freshId nowYear
  else if ev.httpMethod = "PUT" then putCore st ev.ppCategory ev.ppId ev.body
  else
    { resp := { statusCode := 405,
                message := some ("Unsupported HTTP method: " ++ ev.httpMethod) },
      store := st }

/-- The exported `handler` (index.ts lines 305-729).  `exc = some e` stands
for an unhandled exception raised anywhere while processing the request
inside the `try` block; the top-level `catch` (lines 717-729) then answers
status 200 with the sample-movie list.  `freshId` and `nowYear` supply
`uuidv4()` and `new Date().getFullYear()`. -/
def handler (ev : Event) (st : Store) (tr : Translator) (freshId : String) (nowYear : Int)
    (exc : Option String) : HResult :=
  if ev.httpMethod = "OPTIONS" then
    { resp := { statusCode := 200 }, store := st }
  else
    match exc with
    | some _ =>
      { resp := { statusCode := 200,
                  message := some "An error occurred during request processing, returning sample data",
                  movies := some sampleMovies },
        store := st }
    | none => dispatch ev st tr freshId nowYear

/-! ## Helper lemmas -/

theorem assocFind_assocSet_self {α β : Type} [DecidableEq α] (l : List (α × β)) (k : α) (v : β) :
    assocFind (assocSet l k v) k = some v := by
  induction l with
  | nil => simp [assocSet, assocFind]
  | cons hd tl ih =>
    obtain ⟨a, b⟩ := hd
    by_cases h : a = k
    · simp [assocSet, assocFind, h]
    · simp [assocSet, assocFind, h, ih]

theorem isEmpty_false_of_ne {s : String} (h : s ≠ "") : s.isEmpty = false := by
  cases he : s.isEmpty
  · rfl
  · exact absurd ((String.isEmpty_iff s).mp he) h

theorem strTruthy_some {s : String} (h : s ≠ "") : strTruthy (some s) = true := by
  simp [strTruthy, isEmpty_false_of_ne h]

theorem cacheHit_of_entry {m : Movie} {lang s : String}
    (hs : trLookup m lang = some s) (hne : s ≠ "") : cacheHit m lang = true := by
  simp [cacheHit, hs, isEmpty_false_of_ne hne]

theorem trLookup_cacheStore (m : Movie) (lang t : String) :
    trLookup (cacheStore m lang t) lang = some t := by
  simp [trLookup, cacheStore, assocFind_assocSet_self]

/-! ## Evaluation lemmas: the four paths of the translation branch -/

theorem translateCore_eq_blank (st : Store) (tr : Translator) (c i lang : String) (m : Movie)
    (hm : getMovieFromDB st c i = some m) (hd : jsTrim m.description = "") :
    translateCore st tr c i lang =
      { resp := { statusCode := 200,
                  message := some "Movie description is empty, no translation needed",
                  movie := some m, translated := some "" },
        store := st } := by
  simp [translateCore, hm, hd]

theorem translateCore_eq_hit (st : Store) (tr : Translator) (c i lang : String) (m : Movie)
    (hm : getMovieFromDB st c i = some m) (hd : jsTrim m.description ≠ "")
    (hh : cacheHit m lang = true) :
    translateCore st tr c i lang =
      { resp := { statusCode := 200, message := some "Using cached translation",
                  movie := some m, translated := trLookup m lang },
        store := st } := by
  simp [translateCore, hm, hd, hh]

theorem translateCore_eq_miss_ok (st : Store) (tr : Translator) (c i lang : String) (m : Movie)
    (t : String) (hm : getMovieFromDB st c i = some m) (hd : jsTrim m.description ≠ "")
    (hh : cacheHit m lang = false) (ht : tr m.description lang = .ok t) :
    translateCore st tr c i lang =
      { resp := { statusCode := 200, message := some "Translation successful",
                  movie := some (cacheStore m lang t), translated := some t },
        store := (addMovieToDB st (cacheStore m lang t)).store,
        translatorCalls := 1,
        translatorArgs := [⟨m.description, "auto", lang⟩],
        storeWrites := (addMovieToDB st (cacheStore m lang t)).puts } := by
  simp [translateCore, hm, hd, hh, ht]

theorem translateCore_eq_miss_err (st : Store) (tr : Translator) (c i lang : String) (m : Movie)
    (e : TransErr) (hm : getMovieFromDB st c i = some m) (hd : jsTrim m.description ≠ "")
    (hh : cacheHit m lang = false) (ht : tr m.description lang = .error e) :
    translateCore st tr c i lang =
      { resp := { statusCode := 500, message := some "Translation service error",
                  error := some (e.code ++ ": " ++ e.message),
                  movie := some m,
                  translated := some ("Translation failed: " ++ m.description) },
        store := st, translatorCalls := 1,
        translatorArgs := [⟨m.description, "auto", lang⟩] } := by
  simp [translateCore, hm, hd, hh, ht]

/-! ## Concrete fixtures used by witnesses and counterexamples -/

def mvHello : Movie :=
  { category := "action", id := "m1", title := "T", director := "D", year := 2000
    rating := 5, description := "Hello", isAvailable := true, translations := some [] }

def stHello : Store := { tableSet := true, table := [(("action", "m1"), mvHello)] }

def stHelloPutFails : Store := { stHello with putFails := true }

def trBonjour : Translator := fun _ _ => .ok "Bonjour"

def trDown : Translator := fun _ _ => .error ⟨"AccessDeniedException", "no access"⟩

def mvBlankCached : Movie := { mvHello with description := " ", translations := some [("en", "cached hit")] }

def stBlankCached : Store := { tableSet := true, table := [(("action", "m1"), mvBlankCached)] }

def mvEmptyEntry : Movie := { mvHello with translations := some [("en", "")] }

def stEmptyEntry : Store := { tableSet := true, table := [(("action", "m1"), mvEmptyEntry)] }

def mvCachedHit : Movie := { mvHello with translations := some [("en", "Hi")] }

def stCachedHit : Store := { tableSet := true, table := [(("action", "m1"), mvCachedHit)] }

/-! ## Claim C1 -/

/-- Claim C1 is false as stated: two concrete records on which a cached entry
for the requested language exists and is not returned unchanged with zero
translator calls.  First input: a record whose description is blank and whose
map caches `"cached hit"` for `en` — the blank-description short-circuit
(which precedes the cache check) answers `""`, not the cached value.  Second
input: a record with non-blank description whose map caches the empty string
for `en` — the JS-truthiness cache check treats that entry as a miss and the
translator is called once, not zero times. -/
theorem C1_counterexample :
    (trLookup mvBlankCached "en" = some "cached hit" ∧
      (translateCore stBlankCached trBonjour "action" "m1" "en").resp.translated = some "" ∧
      (translateCore stBlankCached trBonjour "action" "m1" "en").resp.translated ≠
        some "cached hit" ∧
      (translateCore stBlankCached trBonjour "action" "m1" "en").translatorCalls = 0) ∧
    (trLookup mvEmptyEntry "en" = some "" ∧
      (translateCore stEmptyEntry trBonjour "action" "m1" "en").translatorCalls = 1) := by
  decide

/-- Claim C1 (amended): for every record with a non-blank description whose
translations map contains a non-empty entry for the requested language code,
Translate returns that cached value unchanged with status 200, performs zero
external-translator calls, and performs zero store writes (the store is
unchanged). -/
theorem C1_cache_hit (st : Store) (tr : Translator) (c i lang : String) (m : Movie) (s : String)
    (hm : getMovieFromDB st c i = some m) (hd : jsTrim m.description ≠ "")
    (hs : trLookup m lang = some s) (hne : s ≠ "") :
    (translateCore st tr c i lang).resp.statusCode = 200 ∧
    (translateCore st tr c i lang).resp.translated = some s ∧
    (translateCore st tr c i lang).translatorCalls = 0 ∧
    (translateCore st tr c i lang).storeWrites = 0 ∧
    (translateCore st tr c i lang).store = st := by
  rw [translateCore_eq_hit st tr c i lang m hm hd (cacheHit_of_entry hs hne)]
  exact ⟨rfl, hs, rfl, rfl, rfl⟩

/-- Claim C1 witness: the amended theorem at a concrete cached record. -/
theorem C1_cache_hit_witness :
    (translateCore stCachedHit trBonjour "action" "m1" "en").resp.statusCode = 200 ∧
    (translateCore stCachedHit trBonjour "action" "m1" "en").resp.translated = some "Hi" ∧
    (translateCore stCachedHit trBonjour "action" "m1" "en").translatorCalls = 0 ∧
    (translateCore stCachedHit trBonjour "action" "m1" "en").storeWrites = 0 ∧
    (translateCore stCachedHit trBonjour "action" "m1" "en").store = stCachedHit :=
  C1_cache_hit stCachedHit trBonjour "action" "m1" "en" mvCachedHit "Hi"
    (by decide) (by decide) (by decide) (by decide)

/-! ## Claim C2 -/

/-- Claim C2: on a cache miss with non-empty description, the translator is
invoked exactly once with `(text = description, source = "auto", target =
language)`; on success the entry `translations[language]` is set to the
result, the whole updated record is persisted best-effort via the insert
(`addMovieToDB`), and — whether or not that persist succeeds — the response
is a 200 carrying the translated text.  The store quantifier ranges over
failing stores too, so persistence failure not failing the read is part of
what is proved. -/
theorem C2_cache_miss_success (st : Store) (tr : Translator) (c i lang : String) (m : Movie)
    (t : String) (hm : getMovieFromDB st c i = some m) (hd : jsTrim m.description ≠ "")
    (hh : cacheHit m lang = false) (ht : tr m.description lang = .ok t) :
    (translateCore st tr c i lang).translatorCalls = 1 ∧
    (translateCore st tr c i lang).translatorArgs = [⟨m.description, "auto", lang⟩] ∧
    (translateCore st tr c i lang).resp.statusCode = 200 ∧
    (translateCore st tr c i lang).resp.translated = some t ∧
    (translateCore st tr c i lang).resp.movie = some (cacheStore m lang t) ∧
    trLookup (cacheStore m lang t) lang = some t ∧
    (translateCore st tr c i lang).store = (addMovieToDB st (cacheStore m lang t)).store ∧
    (translateCore st tr c i lang).storeWrites = (addMovieToDB st (cacheStore m lang t)).puts := by
  rw [translateCore_eq_miss_ok st tr c i lang m t hm hd hh ht]
  exact ⟨rfl, rfl, rfl, rfl, rfl, trLookup_cacheStore m lang t, rfl, rfl⟩

/-- Claim C2 witness: the theorem at a concrete cache miss on a store whose
put fails, showing the read still succeeds with the translated text. -/
theorem C2_cache_miss_success_witness :
    (translateCore stHelloPutFails trBonjour "action" "m1" "fr").translatorCalls = 1 ∧
    (translateCore stHelloPutFails trBonjour "action" "m1" "fr").translatorArgs =
      [⟨"Hello", "auto", "fr"⟩] ∧
    (translateCore stHelloPutFails trBonjour "action" "m1" "fr").resp.statusCode = 200 ∧
    (translateCore stHelloPutFails trBonjour "action" "m1" "fr").resp.translated =
      some "Bonjour" ∧
    (translateCore stHelloPutFails trBonjour "action" "m1" "fr").resp.movie =
      some (cacheStore mvHello "fr" "Bonjour") ∧
    trLookup (cacheStore mvHello "fr" "Bonjour") "fr" = some "Bonjour" ∧
    (translateCore stHelloPutFails trBonjour "action" "m1" "fr").store =
      (addMovieToDB stHelloPutFails (cacheStore mvHello "fr" "Bonjour")).store ∧
    (translateCore stHelloPutFails trBonjour "action" "m1" "fr").storeWrites =
      (addMovieToDB stHelloPutFails (cacheStore mvHello "fr" "Bonjour")).puts :=
  C2_cache_miss_success stHelloPutFails trBonjour "action" "m1" "fr" mvHello "Bonjour"
    (by decide) (by decide) (by decide) (by decide)

/-! ## Claim C3 -/

/-- Claim C3: when the translator call fails on a cache miss, nothing is
cached (the store is unchanged, zero store writes, and the movie in the
response still carries its original translations map), and the response is a
500 `Translation service error` that still returns the original record and a
`Translation failed: <description>` context string. -/
theorem C3_translator_error (st : Store) (tr : Translator) (c i lang : String) (m : Movie)
    (e : TransErr) (hm : getMovieFromDB st c i = some m) (hd : jsTrim m.description ≠ "")
    (hh : cacheHit m lang = false) (ht : tr m.description lang = .error e) :
    (translateCore st tr c i lang).store = st ∧
    (translateCore st tr c i lang).storeWrites = 0 ∧
    (translateCore st tr c i lang).resp.statusCode = 500 ∧
    (translateCore st tr c i lang).resp.message = some "Translation service error" ∧
    (translateCore st tr c i lang).resp.movie = some m ∧
    (translateCore st tr c i lang).resp.error = some (e.code ++ ": " ++ e.message) ∧
    (translateCore st tr c i lang).resp.translated =
      some ("Translation failed: " ++ m.description) := by
  rw [translateCore_eq_miss_err st tr c i lang m e hm hd hh ht]
  exact ⟨rfl, rfl, rfl, rfl, rfl, rfl, rfl⟩

/-- Claim C3 witness: the theorem at a concrete failing translator. -/
theorem C3_translator_error_witness :
    (translateCore stHello trDown "action" "m1" "fr").store = stHello ∧
    (translateCore stHello trDown "action" "m1" "fr").storeWrites = 0 ∧
    (translateCore stHello trDown "action" "m1" "fr").resp.statusCode = 500 ∧
    (translateCore stHello trDown "action" "m1" "fr").resp.message =
      some "Translation service error" ∧
    (translateCore stHello trDown "action" "m1" "fr").resp.movie = some mvHello ∧
    (translateCore stHello trDown "action" "m1" "fr").resp.error =
      some ("AccessDeniedException" ++ ": " ++ "no access") ∧
    (translateCore stHello trDown "action" "m1" "fr").resp.translated =
      some ("Translation failed: " ++ "Hello") :=
  C3_translator_error stHello trDown "action" "m1" "fr" mvHello
    ⟨"AccessDeniedException", "no access"⟩ (by decide) (by decide) (by decide) (by decide)

/-! ## Claim C4 -/

/-- Claim C4: for a record whose description is empty or blank, Translate
answers 200 with `translated = ""`, zero translator calls, zero store writes
and an unchanged store — with no hypothesis on the translations map, i.e.
regardless of cache state. -/
theorem C4_blank_description (st : Store) (tr : Translator) (c i lang : String) (m : Movie)
    (hm : getMovieFromDB st c i = some m) (hd : jsTrim m.description = "") :
    (translateCore st tr c i lang).resp.statusCode = 200 ∧
    (translateCore st tr c i lang).resp.translated = some "" ∧
    (translateCore st tr c i lang).translatorCalls = 0 ∧
    (translateCore st tr c i lang).storeWrites = 0 ∧
    (translateCore st tr c i lang).store = st := by
  rw [translateCore_eq_blank st tr c i lang m hm hd]
  exact ⟨rfl, rfl, rfl, rfl, rfl⟩

/-- Claim C4 witness: the theorem at a concrete blank-description record that
even has a cached entry, showing the cache state is irrelevant. -/
theorem C4_blank_description_witness :
    (translateCore stBlankCached trBonjour "action" "m1" "fr").resp.statusCode = 200 ∧
    (translateCore stBlankCached trBonjour "action" "m1" "fr").resp.translated = some "" ∧
    (translateCore stBlankCached trBonjour "action" "m1" "fr").translatorCalls = 0 ∧
    (translateCore stBlankCached trBonjour "action" "m1" "fr").storeWrites = 0 ∧
    (translateCore stBlankCached trBonjour "action" "m1" "fr").store = stBlankCached :=
  C4_blank_description stBlankCached trBonjour "action" "m1" "fr" mvBlankCached
    (by decide) (by decide)

/-! ## Claim C5 -/

def mvEnA : Movie := { mvHello with translations := some [("en", "A")] }

def stEnA : Store := { tableSet := true, table := [(("action", "m1"), mvEnA)] }

def pTransEnB : Payload := { translations := some [("en", "B")] }

/-- Claim C5 is false as stated: the translation cache is not write-once
across the operations of the core.  Concretely, the stored record for
`("action","m1")` caches `translations["en"] = "A"`, and one Update request
whose payload carries `translations = {en: "B"}` (the update whitelist
includes `translations`) leaves the stored entry at `"B"`. -/
theorem C5_counterexample :
    (assocFind stEnA.table ("action", "m1")).bind (fun m => trLookup m "en") = some "A" ∧
    (assocFind (putCore stEnA (some "action") (some "m1") (.ok pTransEnB)).store.table
      ("action", "m1")).bind (fun m => trLookup m "en") = some "B" ∧
    ("A" : String) ≠ "B" := by
  decide

/-- Claim C5 (amended): restricted to the Translate operation the cache is
write-once — whenever the resolved record already has a non-empty cached
entry for the language, Translate performs zero store writes and leaves the
store unchanged, so it never overwrites an existing entry.  Update (whose
whitelist includes `translations`) and Create/insert (upsert) can replace
the whole map, as the counterexample shows. -/
theorem C5_translate_write_once (st : Store) (tr : Translator) (c i lang : String) (m : Movie)
    (s : String) (hm : getMovieFromDB st c i = some m)
    (hs : trLookup m lang = some s) (hne : s ≠ "") :
    (translateCore st tr c i lang).store = st ∧
    (translateCore st tr c i lang).storeWrites = 0 := by
  by_cases hd : jsTrim m.description = ""
  · rw [translateCore_eq_blank st tr c i lang m hm hd]
    exact ⟨rfl, rfl⟩
  · rw [translateCore_eq_hit st tr c i lang m hm hd (cacheHit_of_entry hs hne)]
    exact ⟨rfl, rfl⟩

/-- Claim C5 witness: the amended theorem at a concrete cached record. -/
theorem C5_translate_write_once_witness :
    (translateCore stCachedHit trDown "action" "m1" "en").store = stCachedHit ∧
    (translateCore stCachedHit trDown "action" "m1" "en").storeWrites = 0 :=
  C5_translate_write_once stCachedHit trDown "action" "m1" "en" mvCachedHit "Hi"
    (by decide) (by decide) (by decide)

/-! ## Claim C6 -/

/-- Claim C6: a Create payload on which any of `title`, `category`,
`description` is missing (absent or empty, the source's JS-truthiness test)
is rejected with a 400 validation outcome, zero store writes and an
unchanged store; a payload with all three present yields no validation error
(201) and the created record has `translations` initialised to the empty
map. -/
theorem C6_create_validation (st : Store) (p : Payload) (freshId : String) (nowYear : Int) :
    (¬(strTruthy p.title = true ∧ strTruthy p.category = true ∧
        strTruthy p.description = true) →
      (postCore st (.ok p) freshId nowYear).resp.statusCode = 400 ∧
      (postCore st (.ok p) freshId nowYear).storeWrites = 0 ∧
      (postCore st (.ok p) freshId nowYear).store = st) ∧
    ((strTruthy p.title = true ∧ strTruthy p.category = true ∧
        strTruthy p.description = true) →
      (postCore st (.ok p) freshId nowYear).resp.statusCode = 201 ∧
      (postCore st (.ok p) freshId nowYear).resp.movie = some (buildMovie p freshId nowYear) ∧
      (buildMovie p freshId nowYear).translations = some []) := by
  constructor
  · intro h
    have hb : (strTruthy p.title && strTruthy p.category && strTruthy p.description) = false := by
      cases ht : strTruthy p.title <;> cases hc : strTruthy p.category <;>
        cases hd : strTruthy p.description <;> simp_all
    simp [postCore, hb]
  · rintro ⟨ht, hc, hd⟩
    simp [postCore, ht, hc, hd, buildMovie]

def pCreateOk : Payload := { title := some "T", category := some "c", description := some "d" }

def pCreateBad : Payload := { title := some "T", category := some "c" }

/-- Claim C6 witness: the theorem at one invalid and one valid concrete
payload. -/
theorem C6_create_validation_witness :
    ((postCore stHello (.ok pCreateBad) "id9" 2025).resp.statusCode = 400 ∧
      (postCore stHello (.ok pCreateBad) "id9" 2025).storeWrites = 0 ∧
      (postCore stHello (.ok pCreateBad) "id9" 2025).store = stHello) ∧
    ((postCore stHello (.ok pCreateOk) "id9" 2025).resp.statusCode = 201 ∧
      (postCore stHello (.ok pCreateOk) "id9" 2025).resp.movie =
        some (buildMovie pCreateOk "id9" 2025) ∧
      (buildMovie pCreateOk "id9" 2025).translations = some []) :=
  ⟨(C6_create_validation stHello pCreateBad "id9" 2025).1 (by decide),
   (C6_create_validation stHello pCreateOk "id9" 2025).2 (by decide)⟩

/-! ## Claim C7 -/

/-- Claim C7: an Update request whose payload contains none of the seven
whitelisted updatable fields is a no-op — zero store writes, the store
unchanged — and answers the fallback 200 outcome whose movie is the original
record merged with the (non-whitelisted) payload fields. -/
theorem C7_update_noop (st : Store) (c i : String) (p : Payload) (m : Movie)
    (hc : c ≠ "") (hi : i ≠ "")
    (hm : getMovieFromDB st c i = some m) (hw : hasWhitelistField p = false) :
    (putCore st (some c) (some i) (.ok p)).store = st ∧
    (putCore st (some c) (some i) (.ok p)).storeWrites = 0 ∧
    (putCore st (some c) (some i) (.ok p)).resp.statusCode = 200 ∧
    (putCore st (some c) (some i) (.ok p)).resp.message =
      some "Movie update not saved to database, but this is the updated data" ∧
    (putCore st (some c) (some i) (.ok p)).resp.movie = some (mergeMovie m p) := by
  have h1 := strTruthy_some hc
  have h2 := strTruthy_some hi
  have hupd : updateMovieInDB st c i p = ⟨none, st, 0⟩ := by
    cases hts : st.tableSet <;> simp [updateMovieInDB, hts, hw]
  simp [putCore, h1, h2, hm, putAfterResolve, hupd]

def pOnlyUnknown : Payload := { category := some "x" }

/-- Claim C7 witness: the theorem at a concrete payload whose only field is
outside the whitelist. -/
theorem C7_update_noop_witness :
    (putCore stHello (some "action") (some "m1") (.ok pOnlyUnknown)).store = stHello ∧
    (putCore stHello (some "action") (some "m1") (.ok pOnlyUnknown)).storeWrites = 0 ∧
    (putCore stHello (some "action") (some "m1") (.ok pOnlyUnknown)).resp.statusCode = 200 ∧
    (putCore stHello (some "action") (some "m1") (.ok pOnlyUnknown)).resp.message =
      some "Movie update not saved to database, but this is the updated data" ∧
    (putCore stHello (some "action") (some "m1") (.ok pOnlyUnknown)).resp.movie =
      some (mergeMovie mvHello pOnlyUnknown) :=
  C7_update_noop stHello "action" "m1" pOnlyUnknown mvHello
    (by decide) (by decide) (by decide) (by decide)

/-! ## Claim C8 -/

def stAllFail : Store :=
  { tableSet := true, table := [], getFails := true, scanFails := true
    queryFails := true, putFails := true, updateFails := true }

/-- Claim C8 is false as stated: a store error on the point get is not
converted to a NotFound/failure result.  Concretely, on a store whose get
call errors, `getMovieFromDB "action" "movie1"` falls back to the built-in
sample data and returns a found movie — a successful record, not
NotFound. -/
theorem C8_counterexample :
    stAllFail.getFails = true ∧
    getMovieFromDB stAllFail "action" "movie1" = sampleFind "action" "movie1" ∧
    (getMovieFromDB stAllFail "action" "movie1").isSome = true := by
  decide

/-- Claim C8 (amended): every underlying store error is caught at the
adapter boundary and never propagated — each adapter operation still returns
a well-typed outcome — but the reads convert the error to the sample-data
fallback (point get and get-by-id fall back to the sample lookup, the list
falls back to the sample list), while the writes report failure (`false`
from insert, `null` from update) and leave the store unchanged. -/
theorem C8_errors_absorbed (st : Store) (c i : String) (cat : Option String) (m : Movie)
    (p : Payload) (hts : st.tableSet = true) :
    (st.getFails = true → getMovieFromDB st c i = sampleFind c i) ∧
    (st.scanFails = true → getMovieByIdFromDB st i = sampleFindById i) ∧
    (st.queryFails = true → st.scanFails = true → getMoviesFromDB st cat = sampleFilter cat) ∧
    (st.putFails = true → addMovieToDB st m = ⟨false, st, 1⟩) ∧
    (st.updateFails = true → hasWhitelistField p = true →
      updateMovieInDB st c i p = ⟨none, st, 1⟩) := by
  refine ⟨?_, ?_, ?_, ?_, ?_⟩
  · intro h
    simp [getMovieFromDB, rawGet, hts, h]
  · intro h
    simp [getMovieByIdFromDB, rawScanById, hts, h]
  · intro hq hs
    cases hcat : strTruthy cat <;>
      simp [getMoviesFromDB, rawQueryByCategory, rawScanAll, hts, hq, hs, hcat]
  · intro h
    simp [addMovieToDB, rawPut, hts, h]
  · intro hu hw
    simp [updateMovieInDB, hts, hw, hu]

/-- Claim C8 witness: the amended theorem at the concrete all-failing
store. -/
theorem C8_errors_absorbed_witness :
    (getMovieFromDB stAllFail "a" "b" = sampleFind "a" "b") ∧
    (getMovieByIdFromDB stAllFail "b" = sampleFindById "b") ∧
    (getMoviesFromDB stAllFail (some "drama") = sampleFilter (some "drama")) ∧
    (addMovieToDB stAllFail mvHello = ⟨false, stAllFail, 1⟩) ∧
    (updateMovieInDB stAllFail "a" "b" pTransEnB = ⟨none, stAllFail, 1⟩) := by
  have h := C8_errors_absorbed stAllFail "a" "b" (some "drama") mvHello pTransEnB (by decide)
  exact ⟨h.1 (by decide), h.2.1 (by decide), h.2.2.1 (by decide) (by decide),
    h.2.2.2.1 (by decide), h.2.2.2.2 (by decide) (by decide)⟩

/-! ## Claim C9 -/

/-- Claim C9 is false as stated: with a working translator but a store whose
best-effort persist fails, both sequential Translate calls return the same
translated text, yet the second call is another cache miss and invokes the
translator again (one call, not zero) — the fire-and-forget `addMovieToDB`
never landed the cache entry. -/
theorem C9_counterexample :
    (translateCore stHelloPutFails trBonjour "action" "m1" "fr").resp.translated =
      some "Bonjour" ∧
    (translateCore (translateCore stHelloPutFails trBonjour "action" "m1" "fr").store
      trBonjour "action" "m1" "fr").resp.translated = some "Bonjour" ∧
    (translateCore (translateCore stHelloPutFails trBonjour "action" "m1" "fr").store
      trBonjour "action" "m1" "fr").translatorCalls = 1 := by
  decide

/-- Claim C9 (amended): calling Translate twice in sequence with a working
translator that returns a non-empty translation yields the same translated
text both times; and provided the best-effort persist of the first call
succeeds before the second call (table configured, put and get not failing),
the second call is a cache hit that makes zero translator calls. -/
theorem C9_idempotent_after_persist (st : Store) (tr : Translator) (c i lang : String)
    (m : Movie) (t : String)
    (hts : st.tableSet = true) (hpf : st.putFails = false) (hgf : st.getFails = false)
    (hm : getMovieFromDB st c i = some m) (hcat : m.category = c) (hid : m.id = i)
    (hd : jsTrim m.description ≠ "") (hh : cacheHit m lang = false)
    (ht : tr m.description lang = .ok t) (htne : t ≠ "") :
    (translateCore st tr c i lang).resp.translated = some t ∧
    (translateCore st tr c i lang).translatorCalls = 1 ∧
    (translateCore (translateCore st tr c i lang).store tr c i lang).resp.translated =
      some t ∧
    (translateCore (translateCore st tr c i lang).store tr c i lang).translatorCalls = 0 := by
  have h1 := translateCore_eq_miss_ok st tr c i lang m t hm hd hh ht
  have hkey : ((cacheStore m lang t).category, (cacheStore m lang t).id) = (c, i) := by
    simp [cacheStore, hcat, hid]
  have hfind : assocFind
      (assocSet st.table ((cacheStore m lang t).category, (cacheStore m lang t).id)
        (cacheStore m lang t)) (c, i) = some (cacheStore m lang t) := by
    rw [hkey]
    exact assocFind_assocSet_self _ _ _
  have hstore : (translateCore st tr c i lang).store = putItem st (cacheStore m lang t) := by
    rw [h1]
    simp [addMovieToDB, rawPut, hts, hpf]
  have hm2 : getMovieFromDB (putItem st (cacheStore m lang t)) c i =
      some (cacheStore m lang t) := by
    simp [getMovieFromDB, rawGet, putItem, hts, hgf, hfind]
  have hd2 : jsTrim (cacheStore m lang t).description ≠ "" := by
    simpa [cacheStore] using hd
  have hhit : cacheHit (cacheStore m lang t) lang = true :=
    cacheHit_of_entry (trLookup_cacheStore m lang t) htne
  have h2 := translateCore_eq_hit (putItem st (cacheStore m lang t)) tr c i lang
    (cacheStore m lang t) hm2 hd2 hhit
  refine ⟨?_, ?_, ?_, ?_⟩
  · rw [h1]
  · rw [h1]
  · rw [hstore, h2]
    exact trLookup_cacheStore m lang t
  · rw [hstore, h2]

/-- Claim C9 witness: the amended theorem at a concrete record on a healthy
store. -/
theorem C9_idempotent_after_persist_witness :
    (translateCore stHello trBonjour "action" "m1" "fr").resp.translated = some "Bonjour" ∧
    (translateCore stHello trBonjour "action" "m1" "fr").translatorCalls = 1 ∧
    (translateCore (translateCore stHello trBonjour "action" "m1" "fr").store
      trBonjour "action" "m1" "fr").resp.translated = some "Bonjour" ∧
    (translateCore (translateCore stHello trBonjour "action" "m1" "fr").store
      trBonjour "action" "m1" "fr").translatorCalls = 0 :=
  C9_idempotent_after_persist stHello trBonjour "action" "m1" "fr" mvHello "Bonjour"
    (by decide) (by decide) (by decide) (by decide) (by decide) (by decide)
    (by decide) (by decide) rfl (by decide)

/-! ## Claim C10 -/

/-- Claim C10: whenever processing a (non-preflight) request raises an
unhandled exception inside the dispatcher, the top-level catch answers a
success outcome — status 200, no error field — whose payload is the fixed
two-element sample movie list, indistinguishable in shape from a genuine
successful List result. -/
theorem C10_catchall (ev : Event) (st : Store) (tr : Translator) (freshId : String)
    (nowYear : Int) (e : String) (hm : ev.httpMethod ≠ "OPTIONS") :
    (handler ev st tr freshId nowYear (some e)).resp.statusCode = 200 ∧
    (handler ev st tr freshId nowYear (some e)).resp.movies = some sampleMovies ∧
    sampleMovies.length = 2 ∧
    (handler ev st tr freshId nowYear (some e)).resp.error = none ∧
    (handler ev st tr freshId nowYear (some e)).resp.message =
      some "An error occurred during request processing, returning sample data" := by
  simp [handler, hm, sampleMovies]

def evMoviesGet : Event := { httpMethod := "GET", path := "/movies" }

/-- Claim C10 witness: the theorem at a concrete GET request on the
all-failing store. -/
theorem C10_catchall_witness :
    (handler evMoviesGet stAllFail trDown "u1" 2025 (some "boom")).resp.statusCode = 200 ∧
    (handler evMoviesGet stAllFail trDown "u1" 2025 (some "boom")).resp.movies =
      some sampleMovies ∧
    sampleMovies.length = 2 ∧
    (handler evMoviesGet stAllFail trDown "u1" 2025 (some "boom")).resp.error = none ∧
    (handler evMoviesGet stAllFail trDown "u1" 2025 (some "boom")).resp.message =
      some "An error occurred during request processing, returning sample data" :=
  C10_catchall evMoviesGet stAllFail trDown "u1" 2025 "boom" (by decide)

end MovieCore
